import Mathlib

/-!
Shallow embedding of the resilient HTTP request-execution layer found in
src/request_handler/src/http_handler/handler.py (classes
BaseHttpRequestHandler, SyncHttpRequestHandler, AsyncHttpRequestHandler).

Modelling conventions:
- Python floats (delays) are modelled as rationals.
- The pooled transport (httpx client) is an external collaborator; one
  attempt of client.request is modelled as an oracle
  transport : Nat -> TransportResult indexed by the attempt number
  (which equals retry_count at the moment of the call).
- random.uniform(0, b) is modelled by a unit draw u in [0, 1] scaled to
  u * b; the draw stream us : Nat -> Rat is indexed by retry_count.
- Logging (_log) has no observable effect on control flow and is omitted.
- Exception objects are modelled by the inductive HErr; the distinct
  exception classes that the handler code branches on are kept distinct
  (httpx.HTTPStatusError with its status code, httpx.RequestError and
  TimeoutException as transportError, ValueError with its message,
  AttributeError, and a catch-all otherError).
-/

namespace HttpHandler

/-- Configuration attributes stored by BaseHttpRequestHandler.__init__ that
the retry logic reads (base_url, timeout and logger do not influence the
retry/backoff control flow and are modelled separately for the constructor
claims). max_retries is a Python int, delays are floats modelled as Rat. -/
structure HandlerConfig where
  max_retries : Int
  min_retry_delay : ℚ
  max_retry_delay : ℚ
  retryable_status_codes : List Nat
deriving Repr, DecidableEq

/-- Exception objects that the handler code catches or raises:
httpx.HTTPStatusError carrying a response status code, httpx.RequestError or
httpx.TimeoutException (transportError), ValueError with a message (JSON
decode failures and batch validation), AttributeError (e.g. calling lstrip
on None), and any other exception (otherError). -/
inductive HErr where
  | httpStatusError (status_code : Nat)
  | transportError
  | valueError (msg : String)
  | attributeError
  | otherError
deriving Repr, DecidableEq

/-- An httpx.Response as far as the handler inspects it: its status code and
whether/what its body decodes to as JSON (none models a JSONDecodeError;
the decoded JSON value is abstracted to a String). -/
structure HttpResponse where
  status_code : Nat
  json : Option String
deriving Repr, DecidableEq

/-- Value returned by a successful _request call: the decoded JSON value
when is_json is set, otherwise the raw response object. -/
inductive RetValue where
  | jsonValue (v : String)
  | rawResponse (response : HttpResponse)
deriving Repr, DecidableEq

/-- Outcome of one client.request call on the external transport: a
response, a raised httpx.RequestError/TimeoutException (transportErr), or
some other raised exception (otherErr). -/
inductive TransportResult where
  | ok (response : HttpResponse)
  | transportErr
  | otherErr
deriving Repr, DecidableEq

/-- Final outcome of one _request / _async_request call: a returned value,
a raised classified exception, or the safeguard httpx.RequestError raised
after the while loop exits. -/
inductive ReqResult where
  | ok (v : RetValue)
  | err (e : HErr)
  | safeguard
deriving Repr, DecidableEq

/-- Message of the ValueError raised on a JSON decode failure in
_handle_response (the response-text snippet interpolation is omitted). -/
def jsonDecodeErrorMsg : String := "JSON decoding error"

/-- BaseHttpRequestHandler._handle_response: raise_for_status raises
httpx.HTTPStatusError for 4xx/5xx responses (status codes at least 400);
then, in JSON mode, a body that fails to decode raises ValueError, a body
that decodes is returned; in raw mode the response object is returned. -/
def handle_response (response : HttpResponse) (is_json : Bool) : Except HErr RetValue :=
  if 400 ≤ response.status_code then
    Except.error (HErr.httpStatusError response.status_code)
  else if is_json then
    match response.json with
    | some v => Except.ok (RetValue.jsonValue v)
    | none => Except.error (HErr.valueError jsonDecodeErrorMsg)
  else
    Except.ok (RetValue.rawResponse response)

/-- The should_retry flag computed at the top of
BaseHttpRequestHandler._calculate_retry_delay: an httpx.HTTPStatusError is
retryable iff its status code is in self.retryable_status_codes; an
httpx.RequestError / TimeoutException is always retryable; any other
exception is not. -/
def should_retry_error (cfg : HandlerConfig) (error : HErr) : Bool :=
  match error with
  | HErr.httpStatusError status_code => cfg.retryable_status_codes.contains status_code
  | HErr.transportError => true
  | _ => false

/-- BaseHttpRequestHandler._calculate_retry_delay: when the error is
retryable and retry_count < max_retries, returns
min(min(min_retry_delay * 2 ^ retry_count, max_retry_delay) + jitter,
max_retry_delay) with jitter = random.uniform(0, base_delay * 0.3),
modelled as u * (base_delay * 3/10) for a unit draw u; otherwise None. -/
def calculate_retry_delay (cfg : HandlerConfig) (retry_count : Nat) (error : HErr)
    (u : ℚ) : Option ℚ :=
  let should_retry := should_retry_error cfg error
  if should_retry ∧ (retry_count : Int) < cfg.max_retries then
    let base_delay := min (cfg.min_retry_delay * 2 ^ retry_count) cfg.max_retry_delay
    let jitter := u * (base_delay * (3 / 10))
    let delay := base_delay + jitter
    some (min delay cfg.max_retry_delay)
  else
    none

theorem calculate_retry_delay_some_lt {cfg : HandlerConfig} {retry_count : Nat}
    {error : HErr} {u : ℚ} {d : ℚ}
    (h : calculate_retry_delay cfg retry_count error u = some d) :
    (retry_count : Int) < cfg.max_retries := by
  by_contra hlt
  unfold calculate_retry_delay at h
  rw [if_neg] at h
  · exact Option.noConfusion h
  · intro hconj
    exact hlt hconj.2

theorem calculate_retry_delay_isSome (cfg : HandlerConfig) (retry_count : Nat)
    (error : HErr) (u : ℚ) :
    (calculate_retry_delay cfg retry_count error u).isSome = true ↔
      (should_retry_error cfg error = true ∧ (retry_count : Int) < cfg.max_retries) := by
  by_cases hc : should_retry_error cfg error = true ∧ (retry_count : Int) < cfg.max_retries
  · simp [calculate_retry_delay, hc.1, hc.2]
  · simp only [calculate_retry_delay, if_neg hc, Option.isSome_none,
      Bool.false_eq_true, false_iff]
    exact hc

/-- One iteration body of the try block in SyncHttpRequestHandler._request /
AsyncHttpRequestHandler._async_request: call client.request on the transport
(attempt number retry_count) and run _handle_response on its response;
exceptions raised by either are the Except.error outcomes. -/
def attempt_once (transport : Nat → TransportResult) (retry_count : Nat)
    (is_json : Bool) : Except HErr RetValue :=
  match transport retry_count with
  | TransportResult.ok response => handle_response response is_json
  | TransportResult.transportErr => Except.error HErr.transportError
  | TransportResult.otherErr => Except.error HErr.otherError

/-- The while loop of SyncHttpRequestHandler._request, with a ghost counter
attempts recording the number of client.request calls performed. While
retry_count <= max_retries: attempt; on success return; on ValueError
re-raise (the isinstance check); on AttributeError or any other
uncategorized exception re-raise (the bare except clause); on
HTTPStatusError/RequestError consult _calculate_retry_delay, sleeping and
incrementing retry_count when it yields a delay and re-raising the error
when it yields None. Falling out of the loop raises the safeguard
httpx.RequestError. -/
def request_loop (cfg : HandlerConfig) (transport : Nat → TransportResult)
    (us : Nat → ℚ) (is_json : Bool) (retry_count : Nat) (attempts : Nat) :
    ReqResult × Nat :=
  if (retry_count : Int) ≤ cfg.max_retries then
    match attempt_once transport retry_count is_json with
    | Except.ok v => (ReqResult.ok v, attempts + 1)
    | Except.error (HErr.valueError m) => (ReqResult.err (HErr.valueError m), attempts + 1)
    | Except.error HErr.attributeError => (ReqResult.err HErr.attributeError, attempts + 1)
    | Except.error HErr.otherError => (ReqResult.err HErr.otherError, attempts + 1)
    | Except.error e =>
      let delay := calculate_retry_delay cfg retry_count e (us retry_count)
      if hdel : delay.isSome then
        request_loop cfg transport us is_json (retry_count + 1) (attempts + 1)
      else
        (ReqResult.err e, attempts + 1)
  else
    (ReqResult.safeguard, attempts)
termination_by (cfg.max_retries + 1 - retry_count).toNat
decreasing_by
  omega

/-- SyncHttpRequestHandler._request on a fixed prepared request: the retry
loop starting from retry_count = 0, paired with the total number of
transport attempts made. -/
def sync_request (cfg : HandlerConfig) (transport : Nat → TransportResult)
    (us : Nat → ℚ) (is_json : Bool) : ReqResult × Nat :=
  request_loop cfg transport us is_json 0 0

/-- The while loop of AsyncHttpRequestHandler._async_request, translated
separately from its own source lines: it is textually the same retry loop
as the synchronous one except that it awaits the transport response and
awaits asyncio.sleep for the backoff (the suspensions have no effect on the
computed outcome and attempt count, which is what this model records). -/
def async_request_loop (cfg : HandlerConfig) (transport : Nat → TransportResult)
    (us : Nat → ℚ) (is_json : Bool) (retry_count : Nat) (attempts : Nat) :
    ReqResult × Nat :=
  if (retry_count : Int) ≤ cfg.max_retries then
    match attempt_once transport retry_count is_json with
    | Except.ok v => (ReqResult.ok v, attempts + 1)
    | Except.error (HErr.valueError m) => (ReqResult.err (HErr.valueError m), attempts + 1)
    | Except.error HErr.attributeError => (ReqResult.err HErr.attributeError, attempts + 1)
    | Except.error HErr.otherError => (ReqResult.err HErr.otherError, attempts + 1)
    | Except.error e =>
      let delay := calculate_retry_delay cfg retry_count e (us retry_count)
      if hdel : delay.isSome then
        async_request_loop cfg transport us is_json (retry_count + 1) (attempts + 1)
      else
        (ReqResult.err e, attempts + 1)
  else
    (ReqResult.safeguard, attempts)
termination_by (cfg.max_retries + 1 - retry_count).toNat
decreasing_by
  omega

/-- AsyncHttpRequestHandler._async_request on a fixed prepared request. -/
def async_request (cfg : HandlerConfig) (transport : Nat → TransportResult)
    (us : Nat → ℚ) (is_json : Bool) : ReqResult × Nat :=
  async_request_loop cfg transport us is_json 0 0

theorem loop_equiv (cfg : HandlerConfig) (transport : Nat → TransportResult)
    (us : Nat → ℚ) (is_json : Bool) :
    ∀ (n retry_count attempts : Nat),
      (cfg.max_retries + 1 - retry_count).toNat ≤ n →
      async_request_loop cfg transport us is_json retry_count attempts =
        request_loop cfg transport us is_json retry_count attempts := by
  intro n
  induction n with
  | zero =>
    intro rc att hn
    have hc : ¬ ((rc : Int) ≤ cfg.max_retries) := by omega
    rw [async_request_loop, request_loop, if_neg hc, if_neg hc]
  | succ n ih =>
    intro rc att hn
    rw [async_request_loop, request_loop]
    by_cases hc : (rc : Int) ≤ cfg.max_retries
    · rw [if_pos hc, if_pos hc]
      cases hatt : attempt_once transport rc is_json with
      | ok v => rfl
      | error e =>
        cases e with
        | valueError m => rfl
        | attributeError => rfl
        | otherError => rfl
        | httpStatusError s =>
          by_cases hdel :
              (calculate_retry_delay cfg rc (HErr.httpStatusError s) (us rc)).isSome = true
          · have hlt := ((calculate_retry_delay_isSome cfg rc
              (HErr.httpStatusError s) (us rc)).mp hdel).2
            simp only [dif_pos hdel]
            exact ih (rc + 1) (att + 1) (by omega)
          · simp only [dif_neg hdel]
        | transportError =>
          by_cases hdel :
              (calculate_retry_delay cfg rc HErr.transportError (us rc)).isSome = true
          · have hlt := ((calculate_retry_delay_isSome cfg rc
              HErr.transportError (us rc)).mp hdel).2
            simp only [dif_pos hdel]
            exact ih (rc + 1) (att + 1) (by omega)
          · simp only [dif_neg hdel]
    · rw [if_neg hc, if_neg hc]

theorem request_loop_all_retryable (cfg : HandlerConfig)
    (transport : Nat → TransportResult) (us : Nat → ℚ) (is_json : Bool)
    (err : Nat → HErr) (M : Nat) (hM : cfg.max_retries = (M : Int))
    (hall : ∀ k, attempt_once transport k is_json = Except.error (err k))
    (hretry : ∀ k, should_retry_error cfg (err k) = true) :
    ∀ (d retry_count attempts : Nat), retry_count + d = M →
      request_loop cfg transport us is_json retry_count attempts =
        (ReqResult.err (err M), attempts + d + 1) := by
  intro d
  induction d with
  | zero =>
    intro rc att hrc
    have hcond : (rc : Int) ≤ cfg.max_retries := by omega
    rw [request_loop, if_pos hcond, hall rc]
    have hr := hretry rc
    cases herr : err rc with
    | valueError m => rw [herr] at hr; simp [should_retry_error] at hr
    | attributeError => rw [herr] at hr; simp [should_retry_error] at hr
    | otherError => rw [herr] at hr; simp [should_retry_error] at hr
    | httpStatusError s =>
      have hnot : ¬ (calculate_retry_delay cfg rc (HErr.httpStatusError s)
          (us rc)).isSome = true := by
        rw [calculate_retry_delay_isSome]
        intro hcontra
        omega
      simp only [herr, dif_neg hnot]
      rw [← herr]
      have : rc = M := by omega
      rw [this]
    | transportError =>
      have hnot : ¬ (calculate_retry_delay cfg rc HErr.transportError
          (us rc)).isSome = true := by
        rw [calculate_retry_delay_isSome]
        intro hcontra
        omega
      simp only [herr, dif_neg hnot]
      rw [← herr]
      have : rc = M := by omega
      rw [this]
  | succ d ih =>
    intro rc att hrc
    have hcond : (rc : Int) ≤ cfg.max_retries := by omega
    rw [request_loop, if_pos hcond, hall rc]
    have hr := hretry rc
    cases herr : err rc with
    | valueError m => rw [herr] at hr; simp [should_retry_error] at hr
    | attributeError => rw [herr] at hr; simp [should_retry_error] at hr
    | otherError => rw [herr] at hr; simp [should_retry_error] at hr
    | httpStatusError s =>
      have hdel : (calculate_retry_delay cfg rc (HErr.httpStatusError s)
          (us rc)).isSome = true := by
        rw [calculate_retry_delay_isSome]
        refine ⟨?_, by omega⟩
        rw [← herr]
        exact hr
      simp only [herr, dif_pos hdel]
      rw [ih (rc + 1) (att + 1) (by omega)]
      simp only [Prod.mk.injEq, true_and]
      omega
    | transportError =>
      have hdel : (calculate_retry_delay cfg rc HErr.transportError
          (us rc)).isSome = true := by
        rw [calculate_retry_delay_isSome]
        refine ⟨?_, by omega⟩
        rw [← herr]
        exact hr
      simp only [herr, dif_pos hdel]
      rw [ih (rc + 1) (att + 1) (by omega)]
      simp only [Prod.mk.injEq, true_and]
      omega

theorem request_loop_attempts_le (cfg : HandlerConfig)
    (transport : Nat → TransportResult) (us : Nat → ℚ) (is_json : Bool) :
    ∀ (n retry_count attempts : Nat),
      (cfg.max_retries + 1 - retry_count).toNat ≤ n →
      (request_loop cfg transport us is_json retry_count attempts).2 ≤
        attempts + (cfg.max_retries + 1 - retry_count).toNat := by
  intro n
  induction n with
  | zero =>
    intro rc att hn
    have hc : ¬ ((rc : Int) ≤ cfg.max_retries) := by omega
    rw [request_loop, if_neg hc]
    exact Nat.le_add_right att _
  | succ n ih =>
    intro rc att hn
    by_cases hc : (rc : Int) ≤ cfg.max_retries
    · rw [request_loop, if_pos hc]
      cases hatt : attempt_once transport rc is_json with
      | ok v => dsimp only; omega
      | error e =>
        cases e with
        | valueError m => dsimp only; omega
        | attributeError => dsimp only; omega
        | otherError => dsimp only; omega
        | httpStatusError s =>
          by_cases hdel : (calculate_retry_delay cfg rc (HErr.httpStatusError s)
              (us rc)).isSome = true
          · simp only [dif_pos hdel]
            have := ih (rc + 1) (att + 1) (by omega)
            omega
          · simp only [dif_neg hdel]
            omega
        | transportError =>
          by_cases hdel : (calculate_retry_delay cfg rc HErr.transportError
              (us rc)).isSome = true
          · simp only [dif_pos hdel]
            have := ih (rc + 1) (att + 1) (by omega)
            omega
          · simp only [dif_neg hdel]
            omega
    · rw [request_loop, if_neg hc]
      omega

theorem request_loop_no_safeguard (cfg : HandlerConfig)
    (transport : Nat → TransportResult) (us : Nat → ℚ) (is_json : Bool)
    (M : Nat) (hM : cfg.max_retries = (M : Int)) :
    ∀ (d retry_count attempts : Nat), retry_count + d = M →
      (request_loop cfg transport us is_json retry_count attempts).1 ≠
        ReqResult.safeguard := by
  intro d
  induction d with
  | zero =>
    intro rc att hrc
    have hcond : (rc : Int) ≤ cfg.max_retries := by omega
    rw [request_loop, if_pos hcond]
    cases hatt : attempt_once transport rc is_json with
    | ok v => dsimp only; intro hcontra; exact ReqResult.noConfusion hcontra
    | error e =>
      cases e with
      | valueError m => dsimp only; intro hcontra; exact ReqResult.noConfusion hcontra
      | attributeError => dsimp only; intro hcontra; exact ReqResult.noConfusion hcontra
      | otherError => dsimp only; intro hcontra; exact ReqResult.noConfusion hcontra
      | httpStatusError s =>
        have hnot : ¬ (calculate_retry_delay cfg rc (HErr.httpStatusError s)
            (us rc)).isSome = true := by
          rw [calculate_retry_delay_isSome]
          intro hcontra
          omega
        simp only [dif_neg hnot]
        intro hcontra
        exact ReqResult.noConfusion hcontra
      | transportError =>
        have hnot : ¬ (calculate_retry_delay cfg rc HErr.transportError
            (us rc)).isSome = true := by
          rw [calculate_retry_delay_isSome]
          intro hcontra
          omega
        simp only [dif_neg hnot]
        intro hcontra
        exact ReqResult.noConfusion hcontra
  | succ d ih =>
    intro rc att hrc
    have hcond : (rc : Int) ≤ cfg.max_retries := by omega
    rw [request_loop, if_pos hcond]
    cases hatt : attempt_once transport rc is_json with
    | ok v => dsimp only; intro hcontra; exact ReqResult.noConfusion hcontra
    | error e =>
      cases e with
      | valueError m => dsimp only; intro hcontra; exact ReqResult.noConfusion hcontra
      | attributeError => dsimp only; intro hcontra; exact ReqResult.noConfusion hcontra
      | otherError => dsimp only; intro hcontra; exact ReqResult.noConfusion hcontra
      | httpStatusError s =>
        by_cases hdel : (calculate_retry_delay cfg rc (HErr.httpStatusError s)
            (us rc)).isSome = true
        · simp only [dif_pos hdel]
          exact ih (rc + 1) (att + 1) (by omega)
        · simp only [dif_neg hdel]
          intro hcontra
          exact ReqResult.noConfusion hcontra
      | transportError =>
        by_cases hdel : (calculate_retry_delay cfg rc HErr.transportError
            (us rc)).isSome = true
        · simp only [dif_pos hdel]
          exact ih (rc + 1) (att + 1) (by omega)
        · simp only [dif_neg hdel]
          intro hcontra
          exact ReqResult.noConfusion hcontra

/-- One descriptor of a batch call, holding the fields the orchestration
code reads by req.get (none models a missing key). -/
structure BatchItem where
  method : Option String
  endpoint : Option String
deriving Repr, DecidableEq

instance : Inhabited BatchItem := ⟨⟨none, none⟩⟩

/-- Python truthiness of an optional string (the async batch check
reads: if not method or not endpoint): None and the empty string are
falsy. -/
def falsyOptStr : Option String → Bool
  | none => true
  | some s => s.isEmpty

/-- Message of the ValueError scheduled by
AsyncHttpRequestHandler.parallel_requests for a descriptor missing method
or endpoint (the index interpolation is omitted). -/
def validationErrorMsg : String := "method and endpoint are required"

/-- The work of one future submitted by
SyncHttpRequestHandler.parallel_requests: self._request called with
method=req.get and endpoint=req.get. When the endpoint is missing (None),
_prepare_request_kwargs raises AttributeError on None.lstrip before any
transport attempt; otherwise the retry loop runs against this item's
transport oracle. The collection loop captures any raised exception via
future.result, so the slot value is the ReqResult of the pair. -/
def sync_batch_item (cfg : HandlerConfig) (transport : Nat → TransportResult)
    (us : Nat → ℚ) (is_json : Bool) (item : BatchItem) : ReqResult × Nat :=
  match item.endpoint with
  | none => (ReqResult.err HErr.attributeError, 0)
  | some _ => request_loop cfg transport us is_json 0 0

/-- The as_completed collection loop of
SyncHttpRequestHandler.parallel_requests: results starts as None repeated
len(requests) times and each completed future writes its own outcome at its
submission index; order is the completion order of the futures. -/
def write_back (slots : Nat → ReqResult) (order : List Nat)
    (results : List (Option ReqResult)) : List (Option ReqResult) :=
  match order with
  | [] => results
  | i :: rest => write_back slots rest (results.set i (some (slots i)))

/-- SyncHttpRequestHandler.parallel_requests: one future per descriptor,
each running _request against that item's transport oracle; completed
futures write back into the index-aligned results list in completion
order. -/
def sync_parallel_requests (cfg : HandlerConfig)
    (transports : Nat → Nat → TransportResult) (uss : Nat → Nat → ℚ)
    (is_json : Bool) (requests : List BatchItem) (order : List Nat) :
    List (Option ReqResult) :=
  write_back
    (fun i => (sync_batch_item cfg (transports i) (uss i) is_json
      (requests.getD i default)).1)
    order (List.replicate requests.length none)

/-- The per-descriptor task built by
AsyncHttpRequestHandler.parallel_requests: a descriptor whose method or
endpoint is falsy becomes a _raise_value_error coroutine; otherwise
_async_request runs against this item's transport oracle.
asyncio.gather(..., return_exceptions=True) captures each task's raise as
that slot's value. -/
def async_batch_item (cfg : HandlerConfig) (transport : Nat → TransportResult)
    (us : Nat → ℚ) (is_json : Bool) (item : BatchItem) : ReqResult :=
  if falsyOptStr item.method || falsyOptStr item.endpoint then
    ReqResult.err (HErr.valueError validationErrorMsg)
  else
    (async_request_loop cfg transport us is_json 0 0).1

/-- AsyncHttpRequestHandler.parallel_requests: asyncio.gather returns the
captured task results in task (submission) order. -/
def async_parallel_requests (cfg : HandlerConfig)
    (transports : Nat → Nat → TransportResult) (uss : Nat → Nat → ℚ)
    (is_json : Bool) (requests : List BatchItem) : List ReqResult :=
  (List.range requests.length).map
    (fun i => async_batch_item cfg (transports i) (uss i) is_json
      (requests.getD i default))

theorem write_back_length (slots : Nat → ReqResult) :
    ∀ (order : List Nat) (results : List (Option ReqResult)),
      (write_back slots order results).length = results.length := by
  intro order
  induction order with
  | nil => intro results; rfl
  | cons k rest ih =>
    intro results
    rw [write_back, ih, List.length_set]

theorem write_back_getElem (slots : Nat → ReqResult) :
    ∀ (order : List Nat) (results : List (Option ReqResult)) (i : Nat),
      i < results.length →
      (write_back slots order results)[i]? =
        if i ∈ order then some (some (slots i)) else results[i]? := by
  intro order
  induction order with
  | nil =>
    intro results i hi
    simp [write_back]
  | cons k rest ih =>
    intro results i hi
    rw [write_back]
    rw [ih (results.set k (some (slots k))) i (by rw [List.length_set]; exact hi)]
    by_cases hmem : i ∈ rest
    · rw [if_pos hmem, if_pos (List.mem_cons_of_mem _ hmem)]
    · rw [if_neg hmem]
      by_cases hik : i = k
      · subst hik
        rw [List.getElem?_set_self hi, if_pos (List.mem_cons_self i rest)]
      · rw [List.getElem?_set_ne (fun hcontra => hik hcontra.symm),
          if_neg (by simp [hik, hmem])]

/-- SyncHttpRequestHandler.close / AsyncHttpRequestHandler.close act on the
client attribute, modelled as Option Bool: some b is a client object whose
is_closed flag is b, none is self.client = None. If the client is truthy
and not closed, client.close() / await client.aclose() runs inside
try/except (a raised exception is logged and swallowed, never propagated);
afterwards self.client = None is always assigned. The Bool of the result
records whether the close call on the underlying client was attempted. -/
def sync_close : Option Bool → Option Bool × Bool
  | some false => (none, true)
  | some true => (none, false)
  | none => (none, false)

/-- AsyncHttpRequestHandler.close, translated from its own lines; same
shape as the synchronous close with await client.aclose(). -/
def async_close : Option Bool → Option Bool × Bool
  | some false => (none, true)
  | some true => (none, false)
  | none => (none, false)

/-- A Python value that can land in the retryable_status_codes or logger
parameters of BaseHttpRequestHandler.__init__: None, a collection of
integer status codes, or a logging.Logger object (the subclasses pass their
logger argument positionally into the retryable_status_codes slot). -/
inductive PyVal where
  | pyNone
  | pyCodes (l : List Nat)
  | pyLogger (id : Nat)
deriving Repr, DecidableEq

/-- Python truthiness for PyVal: None and an empty collection are falsy; a
Logger object is truthy. -/
def pyFalsy : PyVal → Bool
  | PyVal.pyNone => true
  | PyVal.pyCodes l => l.isEmpty
  | PyVal.pyLogger _ => false

/-- The default retryable set 429, 500, 502, 503, 504. -/
def defaultRetryableCodes : List Nat := [429, 500, 502, 503, 504]

/-- Attributes assigned by BaseHttpRequestHandler.__init__ (base_url and
timeout omitted: they do not interact with retry classification or
logging). -/
structure BaseHandlerAttrs where
  max_retries : Int
  min_retry_delay : ℚ
  max_retry_delay : ℚ
  retryable_status_codes : PyVal
  logger : PyVal
deriving Repr, DecidableEq

/-- BaseHttpRequestHandler.__init__: positional parameter order is
(base_url, max_retries, min_retry_delay, max_retry_delay, timeout,
retryable_status_codes, logger); self.retryable_status_codes is
retryable_status_codes or the default set (Python or takes the default
whenever the argument is falsy). -/
def base_handler_init (max_retries : Int) (min_retry_delay max_retry_delay : ℚ)
    (retryable_status_codes : PyVal) (logger : PyVal) : BaseHandlerAttrs :=
  { max_retries := max_retries
    min_retry_delay := min_retry_delay
    max_retry_delay := max_retry_delay
    retryable_status_codes :=
      if pyFalsy retryable_status_codes then PyVal.pyCodes defaultRetryableCodes
      else retryable_status_codes
    logger := logger }

/-- SyncHttpRequestHandler.__init__: its parameter list has no
retryable_status_codes parameter, and its super().__init__ call passes
(base_url, max_retries, min_retry_delay, max_retry_delay, timeout, logger)
positionally; the sixth positional argument of the base is
retryable_status_codes, so the logger argument lands there and the base
logger parameter keeps its None default. -/
def sync_handler_init (max_retries : Int) (min_retry_delay max_retry_delay : ℚ)
    (logger : PyVal) : BaseHandlerAttrs :=
  base_handler_init max_retries min_retry_delay max_retry_delay logger PyVal.pyNone

/-- AsyncHttpRequestHandler.__init__: same parameter list and same
positional super().__init__ call as the synchronous variant. -/
def async_handler_init (max_retries : Int) (min_retry_delay max_retry_delay : ℚ)
    (logger : PyVal) : BaseHandlerAttrs :=
  base_handler_init max_retries min_retry_delay max_retry_delay logger PyVal.pyNone

/-- The Python expression status_code in self.retryable_status_codes as
evaluated during classification: membership when the attribute holds a
collection of ints, a raised TypeError when it holds a non-collection such
as a Logger or None. -/
def py_contains (v : PyVal) (status_code : Nat) : Except Unit Bool :=
  match v with
  | PyVal.pyCodes l => Except.ok (l.contains status_code)
  | _ => Except.error ()

/-- Modelled from the spec: a failure is classified fatal when it is an
HTTP status error whose status is not in the retryable set, or any error
that is neither an HTTP status error nor a transport/timeout error. -/
def fatal_per_spec (cfg : HandlerConfig) (e : HErr) : Prop :=
  match e with
  | HErr.httpStatusError s => s ∉ cfg.retryable_status_codes
  | HErr.transportError => False
  | _ => True

theorem fatal_iff_not_retry (cfg : HandlerConfig) (e : HErr) :
    fatal_per_spec cfg e ↔ should_retry_error cfg e = false := by
  cases e with
  | httpStatusError s =>
    show s ∉ cfg.retryable_status_codes ↔ cfg.retryable_status_codes.contains s = false
    rw [← Bool.not_eq_true, not_iff_not]
    exact List.elem_iff.symm
  | transportError => simp [fatal_per_spec, should_retry_error]
  | valueError m => simp [fatal_per_spec, should_retry_error]
  | attributeError => simp [fatal_per_spec, should_retry_error]
  | otherError => simp [fatal_per_spec, should_retry_error]

/-- Default configuration used by concrete runs: max_retries 3, delays 1.0
and 5.0, retryable set 429/500/502/503/504. -/
def cfgD : HandlerConfig :=
  { max_retries := 3
    min_retry_delay := 1
    max_retry_delay := 5
    retryable_status_codes := defaultRetryableCodes }

/-- C2: for every attemptCount in [0, maxRetries) with a
retryable-classified failure, the computed backoff delay equals
min(min(minRetryDelay * 2 ^ attemptCount, maxRetryDelay) + jitter,
maxRetryDelay) where the jitter lies in [0, 0.3 * cappedBase]; hence the
returned delay is at least the capped exponential base and at most
maxRetryDelay. -/
theorem backoff_delay_formula_and_bounds (cfg : HandlerConfig) (k : Nat)
    (e : HErr) (u : ℚ)
    (hretry : should_retry_error cfg e = true)
    (hk : (k : Int) < cfg.max_retries)
    (hu0 : 0 ≤ u) (hu1 : u ≤ 1)
    (hmin : 0 ≤ cfg.min_retry_delay) (hmax : 0 ≤ cfg.max_retry_delay) :
    calculate_retry_delay cfg k e u =
      some (min
        (min (cfg.min_retry_delay * 2 ^ k) cfg.max_retry_delay +
          u * (min (cfg.min_retry_delay * 2 ^ k) cfg.max_retry_delay * (3 / 10)))
        cfg.max_retry_delay) ∧
    0 ≤ u * (min (cfg.min_retry_delay * 2 ^ k) cfg.max_retry_delay * (3 / 10)) ∧
    u * (min (cfg.min_retry_delay * 2 ^ k) cfg.max_retry_delay * (3 / 10)) ≤
      (3 / 10) * min (cfg.min_retry_delay * 2 ^ k) cfg.max_retry_delay ∧
    min (cfg.min_retry_delay * 2 ^ k) cfg.max_retry_delay ≤
      min
        (min (cfg.min_retry_delay * 2 ^ k) cfg.max_retry_delay +
          u * (min (cfg.min_retry_delay * 2 ^ k) cfg.max_retry_delay * (3 / 10)))
        cfg.max_retry_delay ∧
    min
        (min (cfg.min_retry_delay * 2 ^ k) cfg.max_retry_delay +
          u * (min (cfg.min_retry_delay * 2 ^ k) cfg.max_retry_delay * (3 / 10)))
        cfg.max_retry_delay ≤ cfg.max_retry_delay := by
  have hbase0 : (0 : ℚ) ≤ min (cfg.min_retry_delay * 2 ^ k) cfg.max_retry_delay :=
    le_min (mul_nonneg hmin (pow_nonneg (by norm_num) k)) hmax
  have hj0 : (0 : ℚ) ≤
      u * (min (cfg.min_retry_delay * 2 ^ k) cfg.max_retry_delay * (3 / 10)) :=
    mul_nonneg hu0 (mul_nonneg hbase0 (by norm_num))
  refine ⟨?_, hj0, ?_, ?_, min_le_right _ _⟩
  · simp only [calculate_retry_delay, if_pos (And.intro hretry hk)]
  · calc u * (min (cfg.min_retry_delay * 2 ^ k) cfg.max_retry_delay * (3 / 10)) ≤
        1 * (min (cfg.min_retry_delay * 2 ^ k) cfg.max_retry_delay * (3 / 10)) :=
          mul_le_mul_of_nonneg_right hu1 (mul_nonneg hbase0 (by norm_num))
      _ = (3 / 10) * min (cfg.min_retry_delay * 2 ^ k) cfg.max_retry_delay := by ring
  · exact le_min (le_add_of_nonneg_right hj0) (min_le_right _ _)

/-- C2 witness: the default configuration at attemptCount 0, a 500 status
error and unit draw 1/2. -/
theorem backoff_delay_formula_and_bounds_witness :
    should_retry_error cfgD (HErr.httpStatusError 500) = true ∧
    ((0 : Nat) : Int) < cfgD.max_retries ∧
    (0 : ℚ) ≤ 1 / 2 ∧ (1 / 2 : ℚ) ≤ 1 ∧
    (0 : ℚ) ≤ cfgD.min_retry_delay ∧ (0 : ℚ) ≤ cfgD.max_retry_delay ∧
    calculate_retry_delay cfgD 0 (HErr.httpStatusError 500) (1 / 2) =
      some (min
        (min (cfgD.min_retry_delay * 2 ^ 0) cfgD.max_retry_delay +
          (1 / 2) * (min (cfgD.min_retry_delay * 2 ^ 0) cfgD.max_retry_delay * (3 / 10)))
        cfgD.max_retry_delay) :=
  ⟨by decide, by decide, by norm_num, by norm_num, by norm_num [cfgD], by norm_num [cfgD],
    (backoff_delay_formula_and_bounds cfgD 0 (HErr.httpStatusError 500) (1 / 2)
      (by decide) (by decide) (by norm_num) (by norm_num)
      (by norm_num [cfgD]) (by norm_num [cfgD])).1⟩

/-- C3: _calculate_retry_delay returns None exactly when the attempt count
has reached maxRetries or the failure is classified fatal (a status error
whose status is outside the retryable set, or an error that is neither a
status error nor a transport/timeout error); otherwise it returns a
delay. -/
theorem retry_decision_none_iff (cfg : HandlerConfig) (k : Nat) (e : HErr) (u : ℚ) :
    calculate_retry_delay cfg k e u = none ↔
      (cfg.max_retries ≤ (k : Int) ∨ fatal_per_spec cfg e) := by
  rw [← Option.not_isSome_iff_eq_none]
  constructor
  · intro h
    by_cases hs : should_retry_error cfg e = true
    · left
      by_contra hk
      exact h ((calculate_retry_delay_isSome cfg k e u).mpr ⟨hs, by omega⟩)
    · right
      exact (fatal_iff_not_retry cfg e).mpr (Bool.not_eq_true _ ▸ hs)
  · intro h hcontra
    have hconj := (calculate_retry_delay_isSome cfg k e u).mp hcontra
    rcases h with hk | hfatal
    · omega
    · rw [fatal_iff_not_retry cfg e] at hfatal
      rw [hfatal] at hconj
      exact Bool.noConfusion hconj.1

/-- C7: for every configuration, transport-outcome sequence and jitter-draw
sequence, the blocking executor (SyncHttpRequestHandler._request) and the
cooperative executor (AsyncHttpRequestHandler._async_request) produce the
same final outcome and the same number of transport attempts. -/
theorem sync_async_outcome_equivalence (cfg : HandlerConfig)
    (transport : Nat → TransportResult) (us : Nat → ℚ) (is_json : Bool) :
    async_request cfg transport us is_json = sync_request cfg transport us is_json := by
  show async_request_loop cfg transport us is_json 0 0 =
    request_loop cfg transport us is_json 0 0
  exact loop_equiv cfg transport us is_json ((cfg.max_retries + 1).toNat) 0 0
    (by omega)

/-- C8: the code contradicts the claim. Neither public subclass accepts a
retryable_status_codes parameter, and each passes its logger argument as
the sixth positional argument of the base constructor, which is
retryable_status_codes: constructing a public handler with a logger stores
the Logger object as self.retryable_status_codes (so the status-membership
test of classification raises a TypeError instead of consulting a
configured set) and leaves self.logger as None. Only when no logger is
given does the stored set fall back to the default. -/
theorem subclass_logger_misbinding :
    (sync_handler_init 3 1 5 (PyVal.pyLogger 0)).retryable_status_codes =
      PyVal.pyLogger 0 ∧
    (sync_handler_init 3 1 5 (PyVal.pyLogger 0)).logger = PyVal.pyNone ∧
    (async_handler_init 3 1 5 (PyVal.pyLogger 0)).retryable_status_codes =
      PyVal.pyLogger 0 ∧
    (async_handler_init 3 1 5 (PyVal.pyLogger 0)).logger = PyVal.pyNone ∧
    py_contains (sync_handler_init 3 1 5 (PyVal.pyLogger 0)).retryable_status_codes
      500 = Except.error () ∧
    (sync_handler_init 3 1 5 PyVal.pyNone).retryable_status_codes =
      PyVal.pyCodes defaultRetryableCodes ∧
    (async_handler_init 3 1 5 PyVal.pyNone).retryable_status_codes =
      PyVal.pyCodes defaultRetryableCodes :=
  ⟨rfl, rfl, rfl, rfl, rfl, rfl, rfl⟩

/-- C9: close() is idempotent and safe in both variants: a second call
releases nothing and completes normally, and closing a handler whose
client was created at construction but never used performs the single
release. -/
theorem close_idempotent_and_safe :
    (∀ s : Option Bool,
      sync_close ((sync_close s).1) = (none, false) ∧
      async_close ((async_close s).1) = (none, false)) ∧
    sync_close (some false) = (none, true) ∧
    async_close (some false) = (none, true) := by
  refine ⟨fun s => ?_, rfl, rfl⟩
  cases s with
  | none => exact ⟨rfl, rfl⟩
  | some b => cases b <;> exact ⟨rfl, rfl⟩

/-- Configuration with a negative max_retries, legal for the Python int
parameter. -/
def cfgNeg : HandlerConfig :=
  { max_retries := -1
    min_retry_delay := 1
    max_retry_delay := 5
    retryable_status_codes := defaultRetryableCodes }

/-- C10 counterexample: with max_retries = -1 the while condition is false
on entry, no iteration runs, and both executors raise the safeguard
httpx.RequestError after zero transport attempts — the safeguard branch is
not dead code under all inputs. -/
theorem safeguard_reached_on_negative_max_retries :
    sync_request cfgNeg (fun _ => TransportResult.transportErr) (fun _ => 0) true =
      (ReqResult.safeguard, 0) ∧
    async_request cfgNeg (fun _ => TransportResult.transportErr) (fun _ => 0) true =
      (ReqResult.safeguard, 0) := by
  constructor
  · show request_loop cfgNeg (fun _ => TransportResult.transportErr) (fun _ => 0) true 0 0 =
      (ReqResult.safeguard, 0)
    rw [request_loop, if_neg (by decide)]
  · show async_request_loop cfgNeg (fun _ => TransportResult.transportErr) (fun _ => 0) true 0 0 =
      (ReqResult.safeguard, 0)
    rw [async_request_loop, if_neg (by decide)]

/-- C10 amended: for every configuration with a non-negative max_retries —
in particular every constructible value of the documented int parameter
domain with its default 3 — the safeguard raise after the retry loop is
unreachable in both executors: every iteration returns or raises first. -/
theorem safeguard_unreachable_for_nonneg (cfg : HandlerConfig)
    (transport : Nat → TransportResult) (us : Nat → ℚ) (is_json : Bool)
    (hmr : 0 ≤ cfg.max_retries) :
    (sync_request cfg transport us is_json).1 ≠ ReqResult.safeguard ∧
    (async_request cfg transport us is_json).1 ≠ ReqResult.safeguard := by
  have hM : cfg.max_retries = ((cfg.max_retries.toNat : Nat) : Int) := by omega
  constructor
  · exact request_loop_no_safeguard cfg transport us is_json cfg.max_retries.toNat hM
      cfg.max_retries.toNat 0 0 (Nat.zero_add _)
  · show (async_request_loop cfg transport us is_json 0 0).1 ≠ ReqResult.safeguard
    rw [loop_equiv cfg transport us is_json ((cfg.max_retries + 1).toNat) 0 0 (by omega)]
    exact request_loop_no_safeguard cfg transport us is_json cfg.max_retries.toNat hM
      cfg.max_retries.toNat 0 0 (Nat.zero_add _)

/-- C1: for every single-request execution in either variant, when every
attempt fails with a retryable-classified failure the request performs
exactly maxRetries + 1 transport attempts and fails with the failure of the
last attempt; and for every transport behaviour the attempt count (hence
the retry counter, which is one less) never exceeds maxRetries + 1. -/
theorem retry_budget_and_exhaustion (cfg : HandlerConfig)
    (transport : Nat → TransportResult) (us : Nat → ℚ) (is_json : Bool)
    (err : Nat → HErr)
    (hmr : 0 ≤ cfg.max_retries)
    (hall : ∀ k, attempt_once transport k is_json = Except.error (err k))
    (hretry : ∀ k, should_retry_error cfg (err k) = true) :
    sync_request cfg transport us is_json =
      (ReqResult.err (err cfg.max_retries.toNat), cfg.max_retries.toNat + 1) ∧
    async_request cfg transport us is_json =
      (ReqResult.err (err cfg.max_retries.toNat), cfg.max_retries.toNat + 1) ∧
    ∀ (t2 : Nat → TransportResult) (us2 : Nat → ℚ) (j2 : Bool),
      (sync_request cfg t2 us2 j2).2 ≤ cfg.max_retries.toNat + 1 ∧
      (async_request cfg t2 us2 j2).2 ≤ cfg.max_retries.toNat + 1 := by
  have hM : cfg.max_retries = ((cfg.max_retries.toNat : Nat) : Int) := by omega
  have hsync := request_loop_all_retryable cfg transport us is_json err
    cfg.max_retries.toNat hM hall hretry cfg.max_retries.toNat 0 0 (Nat.zero_add _)
  refine ⟨by simpa using hsync, ?_, fun t2 us2 j2 => ⟨?_, ?_⟩⟩
  · show async_request_loop cfg transport us is_json 0 0 = _
    rw [loop_equiv cfg transport us is_json ((cfg.max_retries + 1).toNat) 0 0 (by omega)]
    simpa using hsync
  · have hb := request_loop_attempts_le cfg t2 us2 j2
      ((cfg.max_retries + 1).toNat) 0 0 (by omega)
    show (request_loop cfg t2 us2 j2 0 0).2 ≤ _
    omega
  · show (async_request_loop cfg t2 us2 j2 0 0).2 ≤ _
    rw [loop_equiv cfg t2 us2 j2 ((cfg.max_retries + 1).toNat) 0 0 (by omega)]
    have hb := request_loop_attempts_le cfg t2 us2 j2
      ((cfg.max_retries + 1).toNat) 0 0 (by omega)
    omega

/-- C1 witness: the default configuration with a transport that always
returns a 500 response makes 4 attempts and fails with the 500 status
error. -/
theorem retry_budget_and_exhaustion_witness :
    (0 : Int) ≤ cfgD.max_retries ∧
    sync_request cfgD (fun _ => TransportResult.ok ⟨500, none⟩) (fun _ => 0) true =
      (ReqResult.err (HErr.httpStatusError 500), 4) := by
  refine ⟨by decide, ?_⟩
  have hr : should_retry_error cfgD (HErr.httpStatusError 500) = true := by decide
  have h := (retry_budget_and_exhaustion cfgD
    (fun _ => TransportResult.ok ⟨500, none⟩) (fun _ => 0) true
    (fun _ => HErr.httpStatusError 500) (by decide)
    (fun _ => rfl) (fun _ => hr)).1
  exact h

/-- C4: a request with JSON decoding enabled whose response has a 2xx
status but a body that fails JSON decoding fails immediately with the
non-retryable ValueError decode error after exactly one transport attempt,
in both variants, whatever the configured retryable set. -/
theorem decode_error_never_retried (cfg : HandlerConfig)
    (transport : Nat → TransportResult) (us : Nat → ℚ) (resp : HttpResponse)
    (hmr : 0 ≤ cfg.max_retries)
    (h0 : transport 0 = TransportResult.ok resp)
    (hlo : 200 ≤ resp.status_code) (hhi : resp.status_code ≤ 299)
    (hbad : resp.json = none) :
    sync_request cfg transport us true =
      (ReqResult.err (HErr.valueError jsonDecodeErrorMsg), 1) ∧
    async_request cfg transport us true =
      (ReqResult.err (HErr.valueError jsonDecodeErrorMsg), 1) := by
  have hatt : attempt_once transport 0 true =
      Except.error (HErr.valueError jsonDecodeErrorMsg) := by
    unfold attempt_once
    rw [h0]
    show handle_response resp true = _
    unfold handle_response
    rw [if_neg (by omega), if_pos rfl, hbad]
  constructor
  · show request_loop cfg transport us true 0 0 = _
    rw [request_loop, if_pos (by exact_mod_cast hmr), hatt]
  · show async_request_loop cfg transport us true 0 0 = _
    rw [async_request_loop, if_pos (by exact_mod_cast hmr), hatt]

/-- C4 witness: a 200 response whose body fails to decode, under the
default configuration. -/
theorem decode_error_never_retried_witness :
    (0 : Int) ≤ cfgD.max_retries ∧
    (200 : Nat) ≤ (⟨200, none⟩ : HttpResponse).status_code ∧
    (⟨200, none⟩ : HttpResponse).status_code ≤ 299 ∧
    (⟨200, none⟩ : HttpResponse).json = none ∧
    sync_request cfgD (fun _ => TransportResult.ok ⟨200, none⟩) (fun _ => 0) true =
      (ReqResult.err (HErr.valueError jsonDecodeErrorMsg), 1) :=
  ⟨by decide, by decide, by decide, rfl,
    (decode_error_never_retried cfgD (fun _ => TransportResult.ok ⟨200, none⟩)
      (fun _ => 0) ⟨200, none⟩ (by decide) rfl (by decide) (by decide) rfl).1⟩

theorem sync_parallel_slot (cfg : HandlerConfig)
    (transports : Nat → Nat → TransportResult) (uss : Nat → Nat → ℚ)
    (is_json : Bool) (requests : List BatchItem) (order : List Nat)
    (hperm : order.Perm (List.range requests.length)) (i : Nat)
    (hi : i < requests.length) :
    (sync_parallel_requests cfg transports uss is_json requests order)[i]? =
      some (some ((sync_batch_item cfg (transports i) (uss i) is_json
        (requests.getD i default)).1)) := by
  unfold sync_parallel_requests
  rw [write_back_getElem _ order _ i (by simpa using hi),
    if_pos (hperm.mem_iff.mpr (List.mem_range.mpr hi))]

theorem async_parallel_slot (cfg : HandlerConfig)
    (transports : Nat → Nat → TransportResult) (uss : Nat → Nat → ℚ)
    (is_json : Bool) (requests : List BatchItem) (i : Nat)
    (hi : i < requests.length) :
    (async_parallel_requests cfg transports uss is_json requests)[i]? =
      some (async_batch_item cfg (transports i) (uss i) is_json
        (requests.getD i default)) := by
  unfold async_parallel_requests
  rw [List.getElem?_map, List.getElem?_range hi]
  rfl

/-- C5: both batch variants return a list of the same length as the input
whose slot at index i holds exactly the captured outcome of descriptor i
(its success value or its captured error), for every completion order of
the futures in the synchronous worker-pool variant; no slot is removed,
reordered or affected by other items. -/
theorem batch_index_alignment (cfg : HandlerConfig)
    (transports : Nat → Nat → TransportResult) (uss : Nat → Nat → ℚ)
    (is_json : Bool) (requests : List BatchItem) (order : List Nat)
    (hperm : order.Perm (List.range requests.length)) :
    (sync_parallel_requests cfg transports uss is_json requests order).length =
      requests.length ∧
    (async_parallel_requests cfg transports uss is_json requests).length =
      requests.length ∧
    ∀ i, i < requests.length →
      (sync_parallel_requests cfg transports uss is_json requests order)[i]? =
        some (some ((sync_batch_item cfg (transports i) (uss i) is_json
          (requests.getD i default)).1)) ∧
      (async_parallel_requests cfg transports uss is_json requests)[i]? =
        some (async_batch_item cfg (transports i) (uss i) is_json
          (requests.getD i default)) := by
  refine ⟨?_, ?_, fun i hi =>
    ⟨sync_parallel_slot cfg transports uss is_json requests order hperm i hi,
     async_parallel_slot cfg transports uss is_json requests i hi⟩⟩
  · unfold sync_parallel_requests
    rw [write_back_length, List.length_replicate]
  · unfold async_parallel_requests
    rw [List.length_map, List.length_range]

/-- C5 witness: a two-descriptor batch collected in reversed completion
order. -/
theorem batch_index_alignment_witness :
    ([1, 0] : List Nat).Perm (List.range
      ([⟨some "GET", some "/a"⟩, ⟨some "GET", some "/b"⟩] : List BatchItem).length) ∧
    ((sync_parallel_requests cfgD (fun _ _ => TransportResult.transportErr)
        (fun _ _ => 0) true
        [⟨some "GET", some "/a"⟩, ⟨some "GET", some "/b"⟩] [1, 0]).length =
      ([⟨some "GET", some "/a"⟩, ⟨some "GET", some "/b"⟩] : List BatchItem).length ∧
    (async_parallel_requests cfgD (fun _ _ => TransportResult.transportErr)
        (fun _ _ => 0) true
        [⟨some "GET", some "/a"⟩, ⟨some "GET", some "/b"⟩]).length =
      ([⟨some "GET", some "/a"⟩, ⟨some "GET", some "/b"⟩] : List BatchItem).length ∧
    ∀ i, i < ([⟨some "GET", some "/a"⟩, ⟨some "GET", some "/b"⟩] : List BatchItem).length →
      (sync_parallel_requests cfgD (fun _ _ => TransportResult.transportErr)
          (fun _ _ => 0) true
          [⟨some "GET", some "/a"⟩, ⟨some "GET", some "/b"⟩] [1, 0])[i]? =
        some (some ((sync_batch_item cfgD ((fun _ _ => TransportResult.transportErr) i)
          ((fun _ _ => (0 : ℚ)) i) true
          (([⟨some "GET", some "/a"⟩, ⟨some "GET", some "/b"⟩] :
            List BatchItem).getD i default)).1)) ∧
      (async_parallel_requests cfgD (fun _ _ => TransportResult.transportErr)
          (fun _ _ => 0) true
          [⟨some "GET", some "/a"⟩, ⟨some "GET", some "/b"⟩])[i]? =
        some (async_batch_item cfgD ((fun _ _ => TransportResult.transportErr) i)
          ((fun _ _ => (0 : ℚ)) i) true
          (([⟨some "GET", some "/a"⟩, ⟨some "GET", some "/b"⟩] :
            List BatchItem).getD i default))) :=
  ⟨by decide,
    batch_index_alignment cfgD (fun _ _ => TransportResult.transportErr)
      (fun _ _ => 0) true
      [⟨some "GET", some "/a"⟩, ⟨some "GET", some "/b"⟩] [1, 0] (by decide)⟩

/-- C6 counterexample: in the synchronous batch variant a descriptor with a
missing endpoint does not produce a validation ValueError slot; its slot
holds the AttributeError raised while building the request, which is not a
validation-error object. -/
theorem sync_batch_validation_counterexample :
    sync_parallel_requests cfgD (fun _ _ => TransportResult.transportErr)
      (fun _ _ => 0) true [⟨some "GET", none⟩] [0] =
      [some (ReqResult.err HErr.attributeError)] ∧
    ReqResult.err HErr.attributeError ≠
      ReqResult.err (HErr.valueError validationErrorMsg) :=
  ⟨rfl, by decide⟩

/-- C6 amended: a descriptor missing method or endpoint yields a
ValueError validation-error slot in the asynchronous variant; the
synchronous variant performs no such validation, and a missing endpoint
surfaces there as the AttributeError raised while building the request,
captured in that slot; in both variants the batch call itself returns
normally and every other slot holds its own descriptor's outcome. -/
theorem batch_missing_field_amended (cfg : HandlerConfig)
    (transports : Nat → Nat → TransportResult) (uss : Nat → Nat → ℚ)
    (is_json : Bool) (requests : List BatchItem) (order : List Nat) (i : Nat)
    (hperm : order.Perm (List.range requests.length)) (hi : i < requests.length) :
    ((falsyOptStr (requests.getD i default).method ||
        falsyOptStr (requests.getD i default).endpoint) = true →
      (async_parallel_requests cfg transports uss is_json requests)[i]? =
        some (ReqResult.err (HErr.valueError validationErrorMsg))) ∧
    ((requests.getD i default).endpoint = none →
      (sync_parallel_requests cfg transports uss is_json requests order)[i]? =
        some (some (ReqResult.err HErr.attributeError))) ∧
    ∀ j, j < requests.length →
      (sync_parallel_requests cfg transports uss is_json requests order)[j]? =
        some (some ((sync_batch_item cfg (transports j) (uss j) is_json
          (requests.getD j default)).1)) ∧
      (async_parallel_requests cfg transports uss is_json requests)[j]? =
        some (async_batch_item cfg (transports j) (uss j) is_json
          (requests.getD j default)) := by
  refine ⟨fun hfal => ?_, fun hend => ?_, fun j hj =>
    ⟨sync_parallel_slot cfg transports uss is_json requests order hperm j hj,
     async_parallel_slot cfg transports uss is_json requests j hj⟩⟩
  · rw [async_parallel_slot cfg transports uss is_json requests i hi]
    unfold async_batch_item
    rw [if_pos hfal]
  · rw [sync_parallel_slot cfg transports uss is_json requests order hperm i hi]
    unfold sync_batch_item
    rw [hend]

/-- C6 amended witness: a one-descriptor batch whose descriptor has no
method and no endpoint. -/
theorem batch_missing_field_amended_witness :
    ([0] : List Nat).Perm (List.range
      ([(⟨none, none⟩ : BatchItem)] : List BatchItem).length) ∧
    (0 : Nat) < ([(⟨none, none⟩ : BatchItem)] : List BatchItem).length ∧
    (((falsyOptStr (([(⟨none, none⟩ : BatchItem)] :
          List BatchItem).getD 0 default).method ||
        falsyOptStr (([(⟨none, none⟩ : BatchItem)] :
          List BatchItem).getD 0 default).endpoint) = true →
      (async_parallel_requests cfgD (fun _ _ => TransportResult.transportErr)
          (fun _ _ => 0) true [⟨none, none⟩])[0]? =
        some (ReqResult.err (HErr.valueError validationErrorMsg))) ∧
    ((([(⟨none, none⟩ : BatchItem)] : List BatchItem).getD 0 default).endpoint = none →
      (sync_parallel_requests cfgD (fun _ _ => TransportResult.transportErr)
          (fun _ _ => 0) true [⟨none, none⟩] [0])[0]? =
        some (some (ReqResult.err HErr.attributeError))) ∧
    ∀ j, j < ([(⟨none, none⟩ : BatchItem)] : List BatchItem).length →
      (sync_parallel_requests cfgD (fun _ _ => TransportResult.transportErr)
          (fun _ _ => 0) true [⟨none, none⟩] [0])[j]? =
        some (some ((sync_batch_item cfgD
          ((fun _ _ => TransportResult.transportErr) j) ((fun _ _ => (0 : ℚ)) j) true
          (([(⟨none, none⟩ : BatchItem)] : List BatchItem).getD j default)).1)) ∧
      (async_parallel_requests cfgD (fun _ _ => TransportResult.transportErr)
          (fun _ _ => 0) true [⟨none, none⟩])[j]? =
        some (async_batch_item cfgD ((fun _ _ => TransportResult.transportErr) j)
          ((fun _ _ => (0 : ℚ)) j) true
          (([(⟨none, none⟩ : BatchItem)] : List BatchItem).getD j default))) :=
  ⟨by decide, by decide,
    batch_missing_field_amended cfgD (fun _ _ => TransportResult.transportErr)
      (fun _ _ => 0) true [⟨none, none⟩] [0] 0 (by decide) (by decide)⟩

/-- C10 amended witness: the default configuration with an always-failing
transport. -/
theorem safeguard_unreachable_for_nonneg_witness :
    (0 : Int) ≤ cfgD.max_retries ∧
    (sync_request cfgD (fun _ => TransportResult.transportErr) (fun _ => 0) true).1 ≠
      ReqResult.safeguard :=
  ⟨by decide,
    (safeguard_unreachable_for_nonneg cfgD (fun _ => TransportResult.transportErr)
      (fun _ => 0) true (by decide)).1⟩

end HttpHandler
